import Mathlib

/-
  Shallow embedding of the TikTok-scanner content script
  (src/extension/popup.js, content-script section, lines 79-345).

  Modelling conventions:
  - JS numbers that hold probabilities / CSS box coordinates are embedded as ℚ.
  - `video.videoWidth` / `video.videoHeight` are non-negative integers, embedded as Nat
    (`video.videoWidth || 0` makes an absent value 0).
  - JS string truthiness (`record.description && ...`) is embedded as `≠ ""`.
  - The DOM / chrome APIs are embedded as explicit inputs (a `VideoEnv` record per
    candidate element); steps of the pipeline that can throw at runtime
    (description extraction over a live DOM, the `chrome.storage` call inside
    `saveMatch`) are embedded as `Except`-valued inputs so that the
    try/catch control flow of `processVideo` can be reproduced exactly.
  - `STATE` (scanning flag, interval handle, faceApiReady flag, processing Set)
    together with the persisted `tt_matches` list form `ScanState`; the interval
    handle is abstracted to the Bool `intervalArmed`, and issuing the immediate
    `scanOnce()` pass is recorded by the counter `scansRun`.
-/

/-- Bounding box returned by `getBoundingClientRect()` for an element. -/
structure Rect where
  width : ℚ
  height : ℚ
  top : ℚ
  bottom : ℚ
  left : ℚ
  right : ℚ
deriving DecidableEq

/-- popup.js line 93: character-class test of the regex
`/[؀-ۿݐ-ݿࢠ-ࣿ]/`.  All three ranges lie in the
basic multilingual plane, so testing UTF-16 code units (what the non-`u` JS
regex does) coincides with testing code points. -/
def inArabicRange (c : Char) : Bool :=
  (0x600 ≤ c.val && c.val ≤ 0x6FF) ||
  (0x750 ≤ c.val && c.val ≤ 0x77F) ||
  (0x8A0 ≤ c.val && c.val ≤ 0x8FF)

/-- popup.js line 93: `const isArabic = (text) => /[...]/.test(text || '')`.
`none` stands for an absent (undefined/null) argument; `text || ''` maps it to
the empty string. -/
def isArabic (text : Option String) : Bool :=
  (text.getD "").data.any inArabicRange

/-- popup.js lines 95-107: `isElementInViewport`.  `vh`/`vw` are
`window.innerHeight`/`window.innerWidth`. -/
def isElementInViewport (rect : Rect) (vh vw : ℚ) : Bool :=
  decide (rect.width > 0) &&
  decide (rect.height > 0) &&
  decide (rect.top < vh) &&
  decide (rect.bottom > 0) &&
  decide (rect.left < vw) &&
  decide (rect.right > 0)

/-- popup.js line 89: `CONFIG.femaleProbThreshold = 0.7`.  Written with
`mkRat` so that it evaluates by kernel reduction; `femaleProbThreshold_eq`
checks it is the rational 7/10. -/
def femaleProbThreshold : ℚ := mkRat 7 10

/-- One detection returned by
`faceapi.detectAllFaces(...).withAgeAndGender()`: a gender label and a gender
probability (`none` embeds an absent `genderProbability`, which the code
defaults to 0 via `|| 0`). -/
structure Detection where
  gender : String
  genderProbability : Option ℚ
deriving DecidableEq

/-- Result of `detectFemaleOnFrame`.  The extra ghost field `invoked` records
whether the branch that calls `faceapi.detectAllFaces` was reached; it exists
only to make "without invoking the classifier" observable. -/
structure DetectResult where
  isFemale : Bool
  prob : ℚ
  invoked : Bool
deriving DecidableEq

/-- `Math.max` on two rationals, written out so that it evaluates by kernel
reduction (`max` on ℚ hides behind a lattice instance that does not reduce). -/
def jsMax (a b : ℚ) : ℚ := if a ≤ b then b else a

/-- popup.js lines 205-210: the loop
`let maxProb = 0; for (const d of detections) if (d.gender === 'female')
maxProb = Math.max(maxProb, d.genderProbability || 0)`. -/
def femaleLoopMax (detections : List Detection) : ℚ :=
  detections.foldl
    (fun m d => if d.gender = "female" then jsMax m (d.genderProbability.getD 0) else m) 0

/-- popup.js lines 181-216: `detectFemaleOnFrame`.
Inputs: `faceApiReady` embeds `STATE.faceApiReady && window.faceapi` (the two
are set together by `injectFaceApi`); `videoWidth`/`videoHeight` are the
element's intrinsic dimensions; `ctxOk` is whether `canvas.getContext('2d')`
returned a context; `detections` is what the classifier returns when invoked
on the captured frame. -/
def detectFemaleOnFrame (faceApiReady : Bool) (videoWidth videoHeight : Nat)
    (ctxOk : Bool) (detections : List Detection) : DetectResult :=
  if !faceApiReady then ⟨false, 0, false⟩
  else
    let w := max 1 videoWidth
    let h := max 1 videoHeight
    if w < 2 || h < 2 then ⟨false, 0, false⟩
    else if !ctxOk then ⟨false, 0, false⟩
    else if detections.isEmpty then ⟨false, 0, true⟩
    else
      let maxProb := femaleLoopMax detections
      ⟨decide (maxProb ≥ femaleProbThreshold), maxProb, true⟩

/-- A persisted match record, popup.js lines 262-269. -/
structure MatchRecord where
  url : String
  description : String
  prob : ℚ
  collectedAt : String
  page : String
  poster : Option String
deriving DecidableEq

/-- popup.js line 223: the de-dupe scan
`list.some((x) => x.url === record.url ||
(record.description && x.description === record.description))`. -/
def isDuplicate (list : List MatchRecord) (record : MatchRecord) : Bool :=
  list.any fun x =>
    x.url == record.url || (record.description != "" && x.description == record.description)

/-- popup.js lines 218-232: `saveMatch`.  The stored list `tt_matches` is
passed in explicitly; the returned pair is (new stored list, resolved value).
`list.push(record)` appends at the end. -/
def saveMatch (list : List MatchRecord) (record : MatchRecord) :
    List MatchRecord × Bool :=
  if isDuplicate list record then (list, false)
  else (list ++ [record], true)

/-- popup.js lines 80-85: the module state `STATE`, together with the
persisted `tt_matches` list.  `intervalArmed` abstracts `intervalId !== null`;
`scansRun` counts how many `scanOnce()` passes have been issued (it lets "no
scan pass runs" be stated as state equality). -/
structure ScanState where
  scanning : Bool
  intervalArmed : Bool
  faceApiReady : Bool
  processing : List String
  ttMatches : List MatchRecord
  scansRun : Nat
deriving DecidableEq

/-- popup.js lines 290-303: `startScanning`.  `injectOk` is whether the
script injection plus model load performed by `injectFaceApi` would succeed;
`injectFaceApi` resolves immediately with `true` when `STATE.faceApiReady`
already holds (line 114), and on success sets `STATE.faceApiReady` (line 129).
On failure nothing in the state changes and the function returns `false`.
The success path sets `scanning`, issues one immediate `scanOnce()` pass,
then arms the interval timer. -/
def startScanning (injectOk : Bool) (st : ScanState) : ScanState × Bool :=
  if st.scanning then (st, true)
  else if st.faceApiReady || injectOk then
    let st1 := { st with faceApiReady := true, scanning := true }
    let st2 := { st1 with scansRun := st1.scansRun + 1 }
    ({ st2 with intervalArmed := true }, true)
  else (st, false)

/-- popup.js lines 305-313: `stopScanning`. -/
def stopScanning (st : ScanState) : ScanState × Bool :=
  if !st.scanning then (st, true)
  else ({ st with intervalArmed := false, scanning := false, processing := [] }, true)

/-- Shape of the response sent for a `START_SCAN` message (popup.js line 320). -/
structure StartResponse where
  ok : Bool
  scanning : Bool
  faceApiReady : Bool
deriving DecidableEq

/-- popup.js lines 318-320: the `START_SCAN` branch of the message listener:
`const ok = await startScanning(); sendResponse({ ok, scanning:
STATE.scanning, faceApiReady: STATE.faceApiReady })`. -/
def handleStartScan (injectOk : Bool) (st : ScanState) : ScanState × StartResponse :=
  let res := startScanning injectOk st
  (res.1, ⟨res.2, res.1.scanning, res.1.faceApiReady⟩)

/-- Per-candidate inputs of `processVideo`: everything the surrounding DOM and
host environment supply for one element during one pass.
`descResult` is the outcome of `extractDescriptionForVideo(video)` (an
`Except` because the call runs over a live DOM and can throw);
`storageOk = false` embeds the `chrome.storage.local` call inside `saveMatch`
throwing synchronously (e.g. an invalidated extension context), which
`processVideo` would catch.  `detectFemaleOnFrame` itself never rejects: its
body is wrapped in try/catch (popup.js lines 212-215), so its inputs are
plain values. -/
structure VideoEnv where
  isVideoElement : Bool
  key : String
  rect : Rect
  vh : ℚ
  vw : ℚ
  descResult : Except String String
  videoWidth : Nat
  videoHeight : Nat
  ctxOk : Bool
  detections : List Detection
  url : String
  poster : Option String
  now : String
  page : String
  storageOk : Bool

/-- popup.js lines 234-277: `processVideo`.  The processing Set is a list
without duplicates (`add` is guarded by `has`); `Set.delete` is `List.erase`.
The `catch` branch of the source (lines 274-276) only logs: a state reached
when a step throws is returned unchanged, in particular with the key still
in `processing`. -/
def processVideo (env : VideoEnv) (st : ScanState) : ScanState :=
  if !env.isVideoElement then st
  else if env.key ∈ st.processing then st
  else
    let st1 := { st with processing := env.key :: st.processing }
    if !(isElementInViewport env.rect env.vh env.vw) then
      { st1 with processing := st1.processing.erase env.key }
    else
      match env.descResult with
      | .error _ => st1
      | .ok description =>
        if !(isArabic (some description)) then
          { st1 with processing := st1.processing.erase env.key }
        else
          let det := detectFemaleOnFrame st.faceApiReady env.videoWidth
            env.videoHeight env.ctxOk env.detections
          if !det.isFemale then
            { st1 with processing := st1.processing.erase env.key }
          else if !env.storageOk then st1
          else
            let record : MatchRecord :=
              ⟨env.url, description, det.prob, env.now, env.page, env.poster⟩
            let res := saveMatch st1.ttMatches record
            { st1 with ttMatches := res.1, processing := st1.processing.erase env.key }

/-- Events of the `injectFaceApi` interleaving model (popup.js lines 113-146).
`call c`: caller `c` invokes `injectFaceApi`; the readiness check (line 114)
and, when not ready, the creation and `appendChild` of the script element
(lines 117-141) happen synchronously before any suspension point.
`loadDone c`: the asynchronous `onload` handler of the script injected by
caller `c` finishes loading the two models and sets `STATE.faceApiReady`
(line 129). -/
inductive InjEvent where
  | call (c : Nat) : InjEvent
  | loadDone (c : Nat) : InjEvent
deriving DecidableEq

/-- State of the `injectFaceApi` model: the `STATE.faceApiReady` flag, the
callers whose injected script is still loading, and how many times a script
element has been injected (equivalently, how many model loads were started). -/
structure InjState where
  faceApiReady : Bool
  pending : List Nat
  injections : Nat
deriving DecidableEq

/-- One event of the `injectFaceApi` model.  A `call` when not ready
injects a fresh script element (lines 115-141) — there is no in-flight
memoization, only the completed-load flag checked at line 114. -/
def injStep (st : InjState) (e : InjEvent) : InjState :=
  match e with
  | .call c =>
    if st.faceApiReady then st
    else { st with pending := c :: st.pending, injections := st.injections + 1 }
  | .loadDone c =>
    if c ∈ st.pending then
      { st with faceApiReady := true, pending := st.pending.erase c }
    else st

/-- Run a sequence of interleaved `injectFaceApi` events. -/
def injRun (st : InjState) (es : List InjEvent) : InjState := es.foldl injStep st

/-- Initial state: classifier not ready, nothing injected. -/
def injInit : InjState := ⟨false, [], 0⟩


/-- The detections' female confidence scores, in detection order ("the target
category's scores"). -/
def femaleScores (detections : List Detection) : List ℚ :=
  detections.filterMap fun d =>
    if d.gender = "female" then some (d.genderProbability.getD 0) else none

/-- Modelled from the spec's wording for the reported confidence: "the maximum
such score across detections (0 if none)".  Folding `max` from 0 agrees with
the maximum because the classifier's confidences lie in [0,1]. -/
def specConfidence (detections : List Detection) : ℚ :=
  (femaleScores detections).foldl max 0

/-- Concrete match record used in witnesses/counterexamples. -/
def recA : MatchRecord :=
  ⟨"https://www.tiktok.example/video/1", "وصف جميل", mkRat 8 10,
   "2025-01-01T00:00:00Z", "https://www.tiktok.example/foryou", none⟩

/-- A second record: different URL, same non-empty description as `recA`. -/
def recB : MatchRecord :=
  ⟨"https://www.tiktok.example/video/2", "وصف جميل", mkRat 9 10,
   "2025-01-02T00:00:00Z", "https://www.tiktok.example/foryou", none⟩

/-- Concrete detection list used in witnesses: one female face at 0.82. -/
def dsW : List Detection := [⟨"female", some (mkRat 82 100)⟩]

/-- A bounding box fully inside an 800x600 viewport. -/
def rectVisible : Rect := ⟨320, 240, 0, 240, 0, 320⟩

/-- A scanning state with the classifier loaded and nothing in flight. -/
def stReady : ScanState := ⟨true, true, true, [], [], 1⟩

/-- An idle state: nothing armed, classifier not loaded. -/
def stIdle : ScanState := ⟨false, false, false, [], [], 0⟩

/-- A state that is already scanning. -/
def stScanning : ScanState := ⟨true, true, true, [], [], 3⟩

/-- A visible, fresh video candidate whose description extraction throws
(the one concrete input needed to exercise the catch branch of
`processVideo`). -/
def envDescThrows : VideoEnv :=
  ⟨true, "https://cdn.example/video1.mp4", rectVisible, 800, 600,
   Except.error "DOM access failed", 640, 480, true, [],
   "https://www.tiktok.example/video/1", none, "2025-01-01T00:00:00Z",
   "https://www.tiktok.example/foryou", true⟩

theorem jsMax_eq_max (a b : ℚ) : jsMax a b = max a b := by
  rw [jsMax, max_def]

theorem femaleProbThreshold_eq : femaleProbThreshold = 7/10 := by
  norm_num [femaleProbThreshold, Rat.mkRat_eq_div]

example : isArabic (some "مرحبا") = true := by decide
example : isArabic (some "hello") = false := by decide
example : femaleLoopMax [⟨"female", some (mkRat 8 10)⟩, ⟨"male", some (mkRat 9 10)⟩] =
    mkRat 8 10 := by decide
example :
    (detectFemaleOnFrame true 640 480 true [⟨"female", some (mkRat 82 100)⟩]).isFemale =
    true := by decide

/-- Claim C9: `isArabic` returns true iff the string contains at least one
code point in one of the three Arabic Unicode block ranges
(U+0600-U+06FF, U+0750-U+077F, U+08A0-U+08FF); the empty string and an
absent value return false; `isArabic "مرحبا"` is true and `isArabic "hello"`
is false. -/
theorem isArabic_contract :
    (∀ s : String, isArabic (some s) = true ↔
      ∃ c ∈ s.data,
        (0x600 ≤ c.val ∧ c.val ≤ 0x6FF) ∨
        (0x750 ≤ c.val ∧ c.val ≤ 0x77F) ∨
        (0x8A0 ≤ c.val ∧ c.val ≤ 0x8FF))
    ∧ isArabic (some "") = false
    ∧ isArabic none = false
    ∧ isArabic (some "مرحبا") = true
    ∧ isArabic (some "hello") = false := by
  refine ⟨fun s => ?_, by decide, by decide, by decide, by decide⟩
  simp [isArabic, inArabicRange, List.any_eq_true, or_assoc]

/-- Claim C9 witness: the contract applied to the concrete Arabic sample. -/
theorem isArabic_contract_witness : isArabic (some "مرحبا") = true :=
  isArabic_contract.2.2.2.1

/-- Claim C8: `isElementInViewport` returns true iff the box has positive
width and height and overlaps the viewport on both axes; a box with width 0
or height 0 yields false regardless of position. -/
theorem isElementInViewport_iff (rect : Rect) (vh vw : ℚ) :
    (isElementInViewport rect vh vw = true ↔
      (0 < rect.width ∧ 0 < rect.height ∧ rect.top < vh ∧ 0 < rect.bottom ∧
       rect.left < vw ∧ 0 < rect.right))
    ∧ (rect.width = 0 ∨ rect.height = 0 → isElementInViewport rect vh vw = false) := by
  constructor
  · simp [isElementInViewport, and_assoc]
  · rintro (h | h) <;> simp [isElementInViewport, h]

/-- Claim C8 witness: a box of width 0 at an on-screen position is rejected. -/
theorem isElementInViewport_iff_witness :
    isElementInViewport ⟨0, 5, 0, 5, 0, 5⟩ 10 10 = false :=
  (isElementInViewport_iff ⟨0, 5, 0, 5, 0, 5⟩ 10 10).2 (Or.inl rfl)

/-- Claim C7: a start request while already Scanning is a no-op returning
success (state unchanged: no second timer armed, no extra immediate pass),
and a stop request while already Idle is a no-op returning success (state
unchanged: storage and processing set untouched). -/
theorem start_stop_idempotent :
    (∀ (injectOk : Bool) (st : ScanState), st.scanning = true →
      startScanning injectOk st = (st, true))
    ∧ (∀ st : ScanState, st.scanning = false → stopScanning st = (st, true)) := by
  constructor
  · intro injectOk st h
    simp [startScanning, h]
  · intro st h
    simp [stopScanning, h]

/-- Claim C7 witness: both no-ops at concrete states. -/
theorem start_stop_idempotent_witness :
    startScanning false stScanning = (stScanning, true) ∧
    stopScanning stIdle = (stIdle, true) :=
  ⟨start_stop_idempotent.1 false stScanning rfl, start_stop_idempotent.2 stIdle rfl⟩

/-- Claim C5: if classifier initialization fails during a start request while
Idle (scanning false, classifier not yet ready, injection failing), the
transition aborts: the state is unchanged (still Idle, no timer armed, no
scan pass issued) and the START_SCAN response reports failure. -/
theorem start_init_failure_aborts (st : ScanState)
    (h1 : st.scanning = false) (h2 : st.faceApiReady = false) :
    startScanning false st = (st, false) ∧
    handleStartScan false st = (st, ⟨false, false, false⟩) := by
  constructor
  · simp [startScanning, h1, h2]
  · simp [handleStartScan, startScanning, h1, h2]

/-- Claim C5 witness: the aborted start at the concrete idle state. -/
theorem start_init_failure_aborts_witness :
    startScanning false stIdle = (stIdle, false) ∧
    handleStartScan false stIdle = (stIdle, ⟨false, false, false⟩) :=
  start_init_failure_aborts stIdle rfl rfl

theorem isDuplicate_eq_true_iff (l : List MatchRecord) (r : MatchRecord) :
    isDuplicate l r = true ↔
      ∃ x ∈ l, x.url = r.url ∨ (r.description ≠ "" ∧ x.description = r.description) := by
  simp [isDuplicate, List.any_eq_true]

theorem isDuplicate_eq_false_iff (l : List MatchRecord) (r : MatchRecord) :
    isDuplicate l r = false ↔
      ((∀ x ∈ l, x.url ≠ r.url) ∧
       (r.description ≠ "" → ∀ x ∈ l, x.description ≠ r.description)) := by
  rw [← Bool.not_eq_true, isDuplicate_eq_true_iff]
  push_neg
  constructor
  · intro h
    refine ⟨fun x hx => (h x hx).1, fun hd x hx => ?_⟩
    rcases h x hx with ⟨-, h2⟩
    intro he
    exact absurd (h2 hd) (by simp [he])
  · intro h x hx
    exact ⟨h.1 x hx, fun hd => h.2 hd x hx⟩

theorem saveMatch_of_not_dup (l : List MatchRecord) (r : MatchRecord)
    (h : isDuplicate l r = false) : saveMatch l r = (l ++ [r], true) := by
  simp [saveMatch, h]

theorem saveMatch_of_dup (l : List MatchRecord) (r : MatchRecord)
    (h : isDuplicate l r = true) : saveMatch l r = (l, false) := by
  simp [saveMatch, h]

/-- Claim C2: `saveMatch` appends the record at the end of the stored list and
returns true iff no existing record has exactly its URL and no existing record
has exactly its non-empty description; otherwise it returns false and leaves
the list unchanged. -/
theorem saveMatch_contract (l : List MatchRecord) (r : MatchRecord) :
    ((saveMatch l r).2 = true ↔
      ((∀ x ∈ l, x.url ≠ r.url) ∧
       (r.description ≠ "" → ∀ x ∈ l, x.description ≠ r.description)))
    ∧ ((saveMatch l r).2 = true → (saveMatch l r).1 = l ++ [r])
    ∧ ((saveMatch l r).2 = false → (saveMatch l r).1 = l) := by
  cases hd : isDuplicate l r with
  | false =>
    rw [saveMatch_of_not_dup l r hd]
    refine ⟨?_, fun _ => rfl, by simp⟩
    simpa using (isDuplicate_eq_false_iff l r).mp hd
  | true =>
    rw [saveMatch_of_dup l r hd]
    refine ⟨?_, by simp, fun _ => rfl⟩
    simp only [Bool.false_eq_true, false_iff]
    intro hcontra
    have : isDuplicate l r = false := (isDuplicate_eq_false_iff l r).mpr hcontra
    simp [this] at hd

/-- Claim C2 witness: the contract applied at a concrete duplicate input: the
second component is false, so the list is unchanged. -/
theorem saveMatch_contract_witness : (saveMatch [recA] recA).1 = [recA] :=
  (saveMatch_contract [recA] recA).2.2 (by decide)

/-- Claim C6 counterexample: the claim quantifies over every store contents,
but if the record is already a duplicate of the stored list, appending it
twice increases the length by 0, not 1. -/
theorem saveMatch_twice_cex :
    ¬ ((saveMatch (saveMatch [recA] recA).1 recA).1.length = [recA].length + 1) := by
  decide

theorem isDuplicate_append_of (l : List MatchRecord) (r1 r2 : MatchRecord)
    (h : r1.url = r2.url ∨ (r2.description ≠ "" ∧ r1.description = r2.description)) :
    isDuplicate (l ++ [r1]) r2 = true := by
  rw [isDuplicate_eq_true_iff]
  exact ⟨r1, by simp, h⟩

/-- Claim C6 (amended): when the record is not already a duplicate of the
store contents, appending the same record twice increases the list length by
exactly 1 (the second append returns false and leaves the list unchanged);
likewise appending two records with different URLs but identical non-empty
descriptions, when the first is not already a duplicate, increases the length
by exactly 1 (second rejected). -/
theorem saveMatch_dedup_idempotent :
    (∀ (l : List MatchRecord) (r : MatchRecord), isDuplicate l r = false →
      (saveMatch l r).2 = true ∧
      (saveMatch (saveMatch l r).1 r).2 = false ∧
      (saveMatch (saveMatch l r).1 r).1 = l ++ [r] ∧
      (saveMatch (saveMatch l r).1 r).1.length = l.length + 1)
    ∧ (∀ (l : List MatchRecord) (r1 r2 : MatchRecord), isDuplicate l r1 = false →
      r1.url ≠ r2.url → r1.description = r2.description → r2.description ≠ "" →
      (saveMatch l r1).2 = true ∧
      (saveMatch (saveMatch l r1).1 r2).2 = false ∧
      (saveMatch (saveMatch l r1).1 r2).1 = l ++ [r1] ∧
      (saveMatch (saveMatch l r1).1 r2).1.length = l.length + 1) := by
  constructor
  · intro l r h
    rw [saveMatch_of_not_dup l r h]
    have hd2 : isDuplicate (l ++ [r]) r = true :=
      isDuplicate_append_of l r r (Or.inl rfl)
    rw [saveMatch_of_dup _ _ hd2]
    simp
  · intro l r1 r2 h hurl hdesc hne
    rw [saveMatch_of_not_dup l r1 h]
    have hd2 : isDuplicate (l ++ [r1]) r2 = true :=
      isDuplicate_append_of l r1 r2 (Or.inr ⟨hne, hdesc⟩)
    rw [saveMatch_of_dup _ _ hd2]
    simp

/-- Claim C6 witness: both amended parts at concrete records (`recA` twice;
then `recA` followed by `recB`, which differs in URL but shares the non-empty
description). -/
theorem saveMatch_dedup_idempotent_witness :
    (saveMatch (saveMatch [] recA).1 recA).1.length = 1 ∧
    (saveMatch (saveMatch [] recA).1 recB).1.length = 1 :=
  ⟨(saveMatch_dedup_idempotent.1 [] recA (by decide)).2.2.2,
   (saveMatch_dedup_idempotent.2 [] recA recB (by decide) (by decide) (by decide)
     (by decide)).2.2.2⟩

/-- Claim C3 counterexample: two callers that both invoke `injectFaceApi`
before either load completes each pass the `STATE.faceApiReady` check and
each append a script element: the injection is performed twice, refuting
"at most once in total for any interleaving". -/
theorem injectFaceApi_double_injection :
    ¬ (injRun injInit [InjEvent.call 0, InjEvent.call 1]).injections ≤ 1 := by
  decide

theorem injRun_calls (cs : List Nat) : ∀ st : InjState, st.faceApiReady = false →
    (injRun st (cs.map InjEvent.call)).injections = st.injections + cs.length ∧
    (injRun st (cs.map InjEvent.call)).faceApiReady = false := by
  induction cs with
  | nil =>
    intro st h
    simp [injRun, h]
  | cons c cs ih =>
    intro st h
    have hstep : injStep st (InjEvent.call c) =
        { st with pending := c :: st.pending, injections := st.injections + 1 } := by
      simp [injStep, h]
    have hrun : injRun st ((c :: cs).map InjEvent.call) =
        injRun { st with pending := c :: st.pending, injections := st.injections + 1 }
          (cs.map InjEvent.call) := by
      simp [injRun, hstep]
    rw [hrun]
    have := ih { st with pending := c :: st.pending, injections := st.injections + 1 } h
    refine ⟨?_, this.2⟩
    rw [this.1]
    simp
    omega

/-- Claim C3 (amended): initialization is memoized only once the load has
completed — a caller invoking after `STATE.faceApiReady` is set performs no
injection — but there is no in-flight memoization: every caller that invokes
before readiness performs its own script injection and model load, so k
concurrent callers before readiness perform k injections. -/
theorem injectFaceApi_memoized_after_ready :
    (∀ (st : InjState) (c : Nat), st.faceApiReady = true →
      injStep st (InjEvent.call c) = st)
    ∧ (∀ cs : List Nat, (injRun injInit (cs.map InjEvent.call)).injections = cs.length) := by
  constructor
  · intro st c h
    simp [injStep, h]
  · intro cs
    have := injRun_calls cs injInit rfl
    simpa [injInit] using this.1

/-- Claim C3 witness: a ready-state call is a no-op, and two pre-readiness
callers perform two injections. -/
theorem injectFaceApi_memoized_after_ready_witness :
    injStep ⟨true, [], 3⟩ (InjEvent.call 0) = ⟨true, [], 3⟩ ∧
    (injRun injInit ([5, 9].map InjEvent.call)).injections = 2 :=
  ⟨injectFaceApi_memoized_after_ready.1 ⟨true, [], 3⟩ 0 rfl,
   injectFaceApi_memoized_after_ready.2 [5, 9]⟩

theorem mem_femaleScores (ds : List Detection) (x : ℚ) :
    x ∈ femaleScores ds ↔
      ∃ d ∈ ds, d.gender = "female" ∧ d.genderProbability.getD 0 = x := by
  simp only [femaleScores, List.mem_filterMap]
  constructor
  · rintro ⟨d, hd, hsome⟩
    by_cases hg : d.gender = "female"
    · rw [if_pos hg] at hsome
      exact ⟨d, hd, hg, Option.some.inj hsome⟩
    · rw [if_neg hg] at hsome
      cases hsome
  · rintro ⟨d, hd, hg, hx⟩
    exact ⟨d, hd, by rw [if_pos hg, hx]⟩

theorem femaleLoopMax_eq_specConfidence (ds : List Detection) :
    femaleLoopMax ds = specConfidence ds := by
  have h : ∀ (ds : List Detection) (m : ℚ),
      ds.foldl
        (fun m d => if d.gender = "female" then jsMax m (d.genderProbability.getD 0) else m) m
        = (femaleScores ds).foldl max m := by
    intro ds
    induction ds with
    | nil =>
      intro m
      simp [femaleScores]
    | cons d ds ih =>
      intro m
      rw [List.foldl_cons]
      by_cases hg : d.gender = "female"
      · rw [if_pos hg, ih, jsMax_eq_max]
        simp [femaleScores, List.filterMap_cons, hg]
      · rw [if_neg hg, ih]
        simp [femaleScores, List.filterMap_cons, hg]
  exact h ds 0

theorem le_foldl_max_iff (t : ℚ) (l : List ℚ) : ∀ m : ℚ,
    t ≤ l.foldl max m ↔ t ≤ m ∨ ∃ x ∈ l, t ≤ x := by
  induction l with
  | nil =>
    intro m
    simp
  | cons a l ih =>
    intro m
    rw [List.foldl_cons, ih]
    simp only [le_max_iff, List.mem_cons]
    constructor
    · rintro ((h | h) | ⟨x, hx, htx⟩)
      · exact Or.inl h
      · exact Or.inr ⟨a, Or.inl rfl, h⟩
      · exact Or.inr ⟨x, Or.inr hx, htx⟩
    · rintro (h | ⟨x, (rfl | hx), htx⟩)
      · exact Or.inl (Or.inl h)
      · exact Or.inl (Or.inr htx)
      · exact Or.inr ⟨x, hx, htx⟩

/-- Claim C4: with the classifier available and a renderable frame
(both intrinsic dimensions at least 2), `detectFemaleOnFrame` is positive iff
at least one detection is "female" with confidence at least the 0.7
threshold, and the reported confidence is the maximum female score across
detections (0 if none); and whenever either intrinsic dimension is 0 or 1
("zero or near-zero"), it returns a negative result with confidence 0 and
the `invoked` flag false (the classifier is not invoked), regardless of the
detections. -/
theorem detectFemaleOnFrame_decision_rule (videoWidth videoHeight : Nat)
    (ds : List Detection) (hw : 2 ≤ videoWidth) (hh : 2 ≤ videoHeight) :
    ((detectFemaleOnFrame true videoWidth videoHeight true ds).isFemale = true ↔
      ∃ d ∈ ds, d.gender = "female" ∧
        femaleProbThreshold ≤ d.genderProbability.getD 0)
    ∧ (detectFemaleOnFrame true videoWidth videoHeight true ds).prob = specConfidence ds
    ∧ (∀ (w h : Nat) (ds2 : List Detection), w ≤ 1 ∨ h ≤ 1 →
        detectFemaleOnFrame true w h true ds2 = ⟨false, 0, false⟩) := by
  have hdim2 : ¬ (videoWidth < 2 ∨ videoHeight < 2) := by omega
  have hsmall : ∀ (w h : Nat) (ds2 : List Detection), w ≤ 1 ∨ h ≤ 1 →
      detectFemaleOnFrame true w h true ds2 = ⟨false, 0, false⟩ := by
    intro w h ds2 hwh
    have hw2 : w < 2 ∨ h < 2 := by omega
    simp [detectFemaleOnFrame, hw2]
  refine ⟨?_, ?_, hsmall⟩
  · cases hne : ds.isEmpty with
    | true =>
      have h0 : ds = [] := by simpa using hne
      subst h0
      simp [detectFemaleOnFrame, hdim2]
    | false =>
      have hne2 : ds ≠ [] := by
        intro h0
        subst h0
        simp at hne
      simp only [detectFemaleOnFrame, Bool.not_true, Bool.false_eq_true, if_false]
      rw [if_neg ?hcond, if_neg ?hempty]
      case hcond =>
        simp only [Bool.or_eq_true, decide_eq_true_eq, not_or]
        constructor <;> omega
      case hempty => simp [hne2]
      simp only [ge_iff_le, decide_eq_true_eq]
      rw [femaleLoopMax_eq_specConfidence, specConfidence, le_foldl_max_iff]
      have ht : ¬ (femaleProbThreshold ≤ (0:ℚ)) := by decide
      simp only [ht, false_or]
      constructor
      · rintro ⟨x, hx, htx⟩
        rcases (mem_femaleScores ds x).mp hx with ⟨d, hd, hg, hdx⟩
        exact ⟨d, hd, hg, hdx ▸ htx⟩
      · rintro ⟨d, hd, hg, htd⟩
        exact ⟨_, (mem_femaleScores ds _).mpr ⟨d, hd, hg, rfl⟩, htd⟩
  · cases hne : ds.isEmpty with
    | true =>
      have h0 : ds = [] := by simpa using hne
      subst h0
      simp [detectFemaleOnFrame, hdim2, specConfidence, femaleScores]
    | false =>
      have hne2 : ds ≠ [] := by
        intro h0
        subst h0
        simp at hne
      simp [detectFemaleOnFrame, hdim2, hne2, femaleLoopMax_eq_specConfidence]

/-- Claim C4 witness: the reported confidence at a concrete detection list,
and the near-zero-dimension early return at width 0. -/
theorem detectFemaleOnFrame_decision_rule_witness :
    (detectFemaleOnFrame true 640 480 true dsW).prob = specConfidence dsW ∧
    detectFemaleOnFrame true 0 480 true dsW = ⟨false, 0, false⟩ :=
  ⟨(detectFemaleOnFrame_decision_rule 640 480 dsW (by decide) (by decide)).2.1,
   (detectFemaleOnFrame_decision_rule 640 480 dsW (by decide) (by decide)).2.2 0 480 dsW
     (Or.inl (by decide))⟩

theorem isArabic_ne_empty (s : String) (h : isArabic (some s) = true) : s ≠ "" := by
  intro he
  subst he
  exact absurd h (by decide)

theorem detect_isFemale_le (ready : Bool) (w h : Nat) (ctx : Bool) (ds : List Detection) :
    (detectFemaleOnFrame ready w h ctx ds).isFemale = true →
    femaleProbThreshold ≤ (detectFemaleOnFrame ready w h ctx ds).prob := by
  unfold detectFemaleOnFrame
  repeat' split
  all_goals try simp_all [ge_iff_le]
  all_goals split <;> simp_all [ge_iff_le]

/-- Claim C10: every record that `processVideo` ever appends to the stored
match list has confidence at least the configured threshold 0.7 and a
non-empty description containing at least one Arabic-range code point: on any
input, the stored list is either unchanged or extended by exactly one such
record. -/
theorem processVideo_record_invariant (env : VideoEnv) (st : ScanState) :
    (processVideo env st).ttMatches = st.ttMatches ∨
    ∃ r : MatchRecord, (processVideo env st).ttMatches = st.ttMatches ++ [r] ∧
      femaleProbThreshold ≤ r.prob ∧ isArabic (some r.description) = true ∧
      r.description ≠ "" := by
  unfold processVideo
  dsimp only
  split
  · exact Or.inl rfl
  split
  · exact Or.inl rfl
  split
  · exact Or.inl rfl
  split
  · exact Or.inl rfl
  next description heq =>
    split
    · exact Or.inl rfl
    next harabic =>
      split
      · exact Or.inl rfl
      next hfemale =>
        split
        · exact Or.inl rfl
        next hstorage =>
          simp only [Bool.not_eq_true, Bool.not_eq_false'] at harabic hfemale
          cases hdup : isDuplicate st.ttMatches
            ⟨env.url, description,
             (detectFemaleOnFrame st.faceApiReady env.videoWidth env.videoHeight
               env.ctxOk env.detections).prob, env.now, env.page, env.poster⟩ with
          | true =>
            left
            simp [saveMatch, hdup]
          | false =>
            right
            refine ⟨⟨env.url, description,
              (detectFemaleOnFrame st.faceApiReady env.videoWidth env.videoHeight
                env.ctxOk env.detections).prob, env.now, env.page, env.poster⟩,
              by simp [saveMatch, hdup], ?_, harabic, isArabic_ne_empty _ harabic⟩
            exact detect_isFemale_le _ _ _ _ _ hfemale

/-- Claim C1: the code violates the claim.  `envDescThrows` is a genuine
video element with a fresh key and a visible box whose description extraction
throws (step 4); `processVideo` catches the error but, unlike every other
exit path, does not delete the key: it is left in the Processing Set. -/
theorem processVideo_error_keeps_key :
    envDescThrows.key ∉ stReady.processing ∧
    envDescThrows.key ∈ (processVideo envDescThrows stReady).processing := by
  decide
